import Mathlib

/-!
Verification development for the CTFd bootstrap / application-factory module
(`CTFd/__init__.py`).  The module's pieces with decidable logic are embedded
shallowly below: the sandboxed template environment's `_load_template`
(cache-name computation, compilation-cache consultation, loader delegation),
the application factory's loader chain, version-gated upgrade step, and
reverse-proxy configuration handling, plus the `CTFdRequest` path rewrite and
the environment's `finalize` option.
-/

namespace CTFd

/-- A Python value as it may flow through a template expression or the
`finalize` hook: `None`, a string, an integer, or a boolean. -/
inductive PyVal where
  | pynone
  | pystr (s : String)
  | pyint (n : Int)
  | pybool (b : Bool)
deriving DecidableEq, Repr

/-- The environment's `finalize` option installed by
`SandboxedBaseEnvironment.__init__`: `lambda x: x if x is not None else ""`. -/
def finalize (x : PyVal) : PyVal :=
  if x = PyVal.pynone then PyVal.pystr "" else x

/-- Python's `str(...)` applied to an optional configuration value, as in
`str(utils.get_config("ctf_theme"))`: `str(None)` is the literal `"None"`. -/
def pyStr : Option String → String
  | Option.none => "None"
  | Option.some s => s

/-- `CTFdRequest`: the request wrapper.  Its `path` is set in `__init__`,
after the base-class constructor has populated the original WSGI path. -/
structure CTFdRequest where
  script_root : String
  path : String
deriving DecidableEq, Repr

/-- `CTFdRequest.__init__`: the base constructor stores `original_path` in
`self.path`; the override then performs `self.path = self.script_root +
self.path`, once, before the object is handed to any other component. -/
def ctfdRequestInit (script_root original_path : String) : CTFdRequest :=
  { script_root := script_root, path := script_root ++ original_path }

/-- A compiled template: an identity tag (standing for Python object
identity), its mutable globals dict, and the `is_up_to_date` report. -/
structure Template where
  tid : Nat
  globals : List (String × String)
  is_up_to_date : Bool
deriving DecidableEq, Repr

/-- Errors raised inside `_load_template`: `TypeError` (no loader) and
`jinja2.TemplateNotFound` (raised by the loader chain, propagated). -/
inductive JinjaError where
  | typeError (msg : String)
  | templateNotFound (name : String)
deriving DecidableEq, Repr

/-- Python `dict.update`: keys of `upd` override values in `g` in place,
keys absent from `g` are appended. -/
def dictUpdate (g upd : List (String × String)) : List (String × String) :=
  (g.map (fun e =>
    match upd.find? (fun u => u.1 == e.1) with
    | Option.some u => (e.1, u.2)
    | Option.none => e))
  ++ upd.filter (fun u => (g.find? (fun e => e.1 == u.1)).isNone)

/-- The loader attached to the environment.  `ident` stands for the loader's
object identity (the code keys the cache by `weakref.ref(self.loader)`);
`load` is `loader.load(environment, name, globals)`, which raises
`TemplateNotFound` when no sub-loader resolves the name. -/
structure Loader where
  ident : Nat
  load : String → List (String × String) → Except JinjaError Template

/-- The compilation cache: a dict keyed by `(loader identity, cache_name)`. -/
def Cache := List ((Nat × String) × Template)

/-- `cache.get(cache_key)` on the dict model. -/
def cacheLookup (c : Cache) (k : Nat × String) : Option Template :=
  (c.find? (fun e => e.1 == k)).map (fun e => e.2)

/-- `cache[cache_key] = template` on the dict model: replace any entry for
the key, keep all others. -/
def cacheStore (c : Cache) (k : Nat × String) (t : Template) : Cache :=
  (k, t) :: c.filter (fun e => ¬ e.1 == k)

/-- State of a `SandboxedBaseEnvironment` relevant to `_load_template`:
the (optional) loader, the (optional) compilation cache, the `auto_reload`
flag, the configured theme `utils.get_config("ctf_theme")` as observed at
lookup time, and the environment's own globals dict. -/
structure Env where
  loader : Option Loader
  cache : Option Cache
  auto_reload : Bool
  theme_cfg : Option String
  env_globals : List (String × String)

/-- Python `s.startswith(p)` on the character-list representation. -/
def pyStartsWith (s p : String) : Bool :=
  p.data.isPrefixOf s.data

/-- The `cache_name` computed by `_load_template`: the raw name for
`admin/`-prefixed templates, otherwise `str(get_config("ctf_theme")) + "/" +
name`. -/
def cacheNameOf (theme_cfg : Option String) (name : String) : String :=
  if pyStartsWith name "admin/" = false then pyStr theme_cfg ++ "/" ++ name
  else name

/-- The `cache_key = (weakref.ref(self.loader), cache_name)`, with the weak
reference modelled by the loader's identity tag. -/
def cacheKeyOf (L : Loader) (theme_cfg : Option String) (name : String) :
    Nat × String :=
  (L.ident, cacheNameOf theme_cfg name)

/-- The cache consultation of `_load_template`: a template is produced here
only when a cache is configured, the key is present, and
`not self.auto_reload or template.is_up_to_date` holds. -/
def cacheHit (env : Env) (L : Loader) (name : String) : Option Template :=
  match env.cache with
  | Option.none => Option.none
  | Option.some c =>
    match cacheLookup c (cacheKeyOf L env.theme_cfg name) with
    | Option.some t =>
      if !env.auto_reload || t.is_up_to_date then Option.some t
      else Option.none
    | Option.none => Option.none

/-- `template.globals.update(globals)` guarded by `if globals:` — the cached
template object, with its globals dict updated in place when a non-empty
globals dict was passed. -/
def hitResult (t : Template) (g : List (String × String)) : Template :=
  if g.isEmpty then t else { t with globals := dictUpdate t.globals g }

/-- Write-back of a template under the key for `name` (used both for the
in-place mutation visible through the cache on a hit, and for
`self.cache[cache_key] = template` after recompilation). -/
def cacheStoreEnv (env : Env) (L : Loader) (name : String) (t : Template) :
    Env :=
  { env with
    cache := env.cache.map (fun c =>
      cacheStore c (cacheKeyOf L env.theme_cfg name) t) }

/-- `Environment.make_globals`: the globals passed for this resolution
layered over the environment's own globals. -/
def makeGlobals (env : Env) (g : List (String × String)) :
    List (String × String) :=
  dictUpdate env.env_globals g

/-- `SandboxedBaseEnvironment._load_template(name, globals)`, returning the
template and the updated environment state, or the raised error.  Mirrors
the source line by line: loader presence check, cache-name computation,
cache consultation, delegation to `self.loader.load(self, name, ...)` with
the original `name`, and cache write-back. -/
def load_template (env : Env) (name : String) (g : List (String × String)) :
    Except JinjaError (Template × Env) :=
  match env.loader with
  | Option.none =>
    Except.error (JinjaError.typeError "no loader for this environment specified")
  | Option.some L =>
    match cacheHit env L name with
    | Option.some t =>
      if g.isEmpty then Except.ok (t, env)
      else
        let t2 := hitResult t g
        Except.ok (t2, cacheStoreEnv env L name t2)
    | Option.none =>
      match L.load name (makeGlobals env g) with
      | Except.error e => Except.error e
      | Except.ok t => Except.ok (t, cacheStoreEnv env L name t)

/-- Dict lookup used by the override table (`jinja2.DictLoader` semantics:
exact string match against the mapping). -/
def lookupStr (m : List (String × String)) (k : String) : Option String :=
  (m.find? (fun e => e.1 == k)).map (fun e => e.2)

/-- Split a character list at the FIRST occurrence of `sep`; `none` when
`sep` does not occur (Python `s.split(sep, 1)` yielding a single part). -/
def splitFirst (sep : Char) : List Char → Option (List Char × List Char)
  | [] => Option.none
  | c :: cs =>
    if c = sep then Option.some ([], cs)
    else (splitFirst sep cs).map (fun p => (c :: p.1, p.2))

/-- One sub-loader of the chain built in `create_app`.
`dict` is `jinja2.DictLoader(app.overridden_templates)` (exact-match against
the in-memory override table).  `theme` is `ThemeLoader()` — repository code
not present in this excerpt; modelled from the spec: it resolves the name
under the currently configured theme's on-disk template root, abstracted as
a function from (theme, name) to optional source.  `plugin` is
`jinja2.PrefixLoader({"plugins": FileSystemLoader(...)})`: it splits the
name at its first slash, matches only when the first segment is exactly
`plugins`, and resolves the remainder under the plugins template root. -/
inductive TplLoader where
  | dict (mapping : List (String × String))
  | theme (disk : String → String → Option String)
  | plugin (disk : String → Option String)

/-- `get_source` of a single sub-loader: the template source it yields for a
logical name, `none` when it raises `TemplateNotFound`. -/
def getSource (theme_cfg : Option String) (l : TplLoader) (name : String) :
    Option String :=
  match l with
  | TplLoader.dict m => lookupStr m name
  | TplLoader.theme disk => disk (pyStr theme_cfg) name
  | TplLoader.plugin disk =>
    match splitFirst '/' name.data with
    | Option.some (pre, rest) =>
      if pre = "plugins".data then disk (String.mk rest) else Option.none
    | Option.none => Option.none

/-- `jinja2.ChoiceLoader` resolution: the sub-loaders are consulted in
order, the first that resolves the name wins, no merging. -/
def choiceGetSource (theme_cfg : Option String) (ls : List TplLoader)
    (name : String) : Option String :=
  match ls with
  | [] => Option.none
  | l :: rest =>
    match getSource theme_cfg l name with
    | Option.some src => Option.some src
    | Option.none => choiceGetSource theme_cfg rest name

/-- The loader chain installed by `create_app`:
`[DictLoader(app.overridden_templates), ThemeLoader(),
PrefixLoader({"plugins": FileSystemLoader(...)})]` wrapped in a
`ChoiceLoader`. -/
def appLoaderChain (overridden_templates : List (String × String))
    (themeDisk : String → String → Option String)
    (pluginDisk : String → Option String) : List TplLoader :=
  [TplLoader.dict overridden_templates,
   TplLoader.theme themeDisk,
   TplLoader.plugin pluginDisk]

/-- Split a character list on every occurrence of `sep` (Python
`s.split(sep)`; the empty string yields one empty part). -/
def splitChar (sep : Char) : List Char → List (List Char)
  | [] => [[]]
  | c :: cs =>
    let r := splitChar sep cs
    if c = sep then [] :: r
    else
      match r with
      | [] => [[c]]
      | p :: ps => (c :: p) :: ps

/-- One decimal digit of a character, `none` for a non-digit. -/
def decDigit? (c : Char) : Option Nat :=
  if c.isDigit then Option.some (c.toNat - 48) else Option.none

/-- Accumulating decimal read of a digit list. -/
def digitsToNatAux : List Char → Nat → Option Nat
  | [], acc => Option.some acc
  | c :: cs, acc =>
    match decDigit? c with
    | Option.some d => digitsToNatAux cs (acc * 10 + d)
    | Option.none => Option.none

/-- Decimal value of a non-empty all-digit character list. -/
def digitsToNat? (l : List Char) : Option Nat :=
  match l with
  | [] => Option.none
  | _ => digitsToNatAux l 0

/-- Python `int(s)` on a string piece: surrounding spaces stripped, optional
sign, otherwise all decimal digits; `none` models a raised `ValueError`. -/
def pyInt? (l : List Char) : Option Int :=
  let t := ((l.dropWhile (fun c => c = ' ')).reverse.dropWhile
    (fun c => c = ' ')).reverse
  match t with
  | '-' :: rest => (digitsToNat? rest).map (fun n => -(n : Int))
  | '+' :: rest => (digitsToNat? rest).map (fun n => (n : Int))
  | _ => (digitsToNat? t).map (fun n => (n : Int))

/-- `[int(i) for i in reverse_proxy.split(",")]`: every comma-separated
piece parsed as an integer; `none` models the `ValueError` raised when any
piece fails to parse. -/
def parseHops (s : String) : Option (List Int) :=
  (splitChar ',' s.data).foldr
    (fun p acc =>
      match pyInt? p, acc with
      | Option.some i, Option.some l => Option.some (i :: l)
      | _, _ => Option.none)
    (Option.some [])

/-- The shapes the `REVERSE_PROXY` configuration value may take in the
claims: absent (or any falsy value), a string, or a 4-tuple of integers. -/
inductive RPVal where
  | absent
  | str (s : String)
  | tuple4 (a b c d : Int)
deriving Repr

/-- Outcome of the reverse-proxy step of `create_app` on the request entry
point. -/
inductive ProxyOutcome where
  | unwrapped
  | wrapped (args : List Int)
  | valueError
  | typeError
deriving DecidableEq, Repr

/-- The reverse-proxy step of `create_app`:
`reverse_proxy = app.config.get("REVERSE_PROXY")`; when falsy the entry
point is left unwrapped; when truthy, `proxyfix_args` is the parsed integer
list if the value is a `str` and `None` otherwise, and
`ProxyFix(app.wsgi_app, *proxyfix_args)` is evaluated — unpacking `*None`
raises `TypeError`, so every truthy non-string value (such as a 4-tuple)
ends in `typeError`. -/
def applyReverseProxy (rp : RPVal) : ProxyOutcome :=
  match rp with
  | RPVal.absent => ProxyOutcome.unwrapped
  | RPVal.str s =>
    if s.isEmpty then ProxyOutcome.unwrapped
    else
      match parseHops s with
      | Option.some args => ProxyOutcome.wrapped args
      | Option.none => ProxyOutcome.valueError
  | RPVal.tuple4 _ _ _ _ => ProxyOutcome.typeError

/-- A parsed strict version, modelled from the spec: a dotted
semantic-version string compared with strict-ordering semantics
(`distutils.version.StrictVersion` itself is library code outside this
excerpt; the spec calls for strict semantic-version comparison of
`major.minor[.patch]`). -/
structure SVer where
  major : Nat
  minor : Nat
  patch : Nat
deriving DecidableEq, Repr

/-- Strict parse of `major.minor[.patch]` with all-numeric components. -/
def parseStrictVersion (s : String) : Option SVer :=
  match (splitChar '.' s.data).map digitsToNat? with
  | [Option.some a, Option.some b] => Option.some ⟨a, b, 0⟩
  | [Option.some a, Option.some b, Option.some c] => Option.some ⟨a, b, c⟩
  | _ => Option.none

/-- Strict semantic-version ordering: lexicographic on
(major, minor, patch). -/
def svLt (a b : SVer) : Bool :=
  a.major < b.major
  || (a.major == b.major
      && (a.minor < b.minor
          || (a.minor == b.minor && a.patch < b.patch)))

/-- What the version-gating step of `create_app` does. -/
inductive VersionAction where
  | runUpgrade
  | setVersion (v : String)
  | noop
deriving DecidableEq, Repr

/-- The version-gating step of `create_app`:
`version = utils.get_config("ctf_version")`;
`if version and StrictVersion(version) < StrictVersion(__version__):
run_upgrade()` (the upgrade routine, invoked once on this branch);
`elif not version: utils.set_config("ctf_version", __version__)`.
`none` as a result models the `ValueError` a non-strict version string
would raise inside `StrictVersion`. -/
def versionGate (stored : Option String) (build : String) :
    Option VersionAction :=
  match stored with
  | Option.none => Option.some (VersionAction.setVersion build)
  | Option.some s =>
    if s.isEmpty then Option.some (VersionAction.setVersion build)
    else
      match parseStrictVersion s, parseStrictVersion build with
      | Option.some a, Option.some b =>
        Option.some
          (if svLt a b then VersionAction.runUpgrade else VersionAction.noop)
      | _, _ => Option.none

/-- An environment with no loader attached, for evaluating
`_load_template`'s failure mode concretely. -/
def envNoLoader : Env :=
  { loader := Option.none, cache := Option.some [], auto_reload := false,
    theme_cfg := Option.some "core-beta", env_globals := [] }

/-- A concrete compiled template for cache experiments. -/
def tplW : Template := { tid := 7, globals := [], is_up_to_date := true }

/-- A concrete loader whose `load` always raises `TemplateNotFound` for the
requested name (an empty chain). -/
def loaderW : Loader :=
  { ident := 1,
    load := fun n _ => Except.error (JinjaError.templateNotFound n) }

/-- An environment holding a fresh cache entry for `core-beta/page.html`. -/
def envHitW : Env :=
  { loader := Option.some loaderW,
    cache := Option.some [((1, "core-beta/page.html"), tplW)],
    auto_reload := false, theme_cfg := Option.some "core-beta",
    env_globals := [] }

/-- An environment with a loader but no compilation cache. -/
def envMissW : Env :=
  { loader := Option.some loaderW, cache := Option.none, auto_reload := false,
    theme_cfg := Option.some "core-beta", env_globals := [] }

/-! ## Theorems -/

/-- Right cancellation of string concatenation, via the character lists. -/
theorem string_append_cancel_right {a b c : String} (h : a ++ c = b ++ c) :
    a = b :=
  String.ext (by simpa [String.data_append] using congrArg String.data h)

/-- C1: for a non-`admin/` name, `_load_template`'s cache name is the theme
identifier read from configuration at lookup time joined with `"/"` and the
name, and two distinct theme identifiers always give two distinct cache
names — hence two distinct cache keys and cache entries; for an
`admin/`-prefixed name, the cache name is the name itself, so the active
theme does not influence the cache key. -/
theorem cache_name_theme_namespacing (name : String) :
    (pyStartsWith name "admin/" = false →
      (∀ cfg : Option String, cacheNameOf cfg name = pyStr cfg ++ "/" ++ name)
      ∧ (∀ t1 t2 : String, t1 ≠ t2 →
          cacheNameOf (Option.some t1) name ≠ cacheNameOf (Option.some t2) name)
      ∧ (∀ (L : Loader) (t1 t2 : String), t1 ≠ t2 →
          cacheKeyOf L (Option.some t1) name ≠ cacheKeyOf L (Option.some t2) name))
    ∧ (pyStartsWith name "admin/" = true →
      ∀ cfg1 cfg2 : Option String,
        cacheNameOf cfg1 name = name
        ∧ cacheNameOf cfg1 name = cacheNameOf cfg2 name) := by
  constructor
  · intro h
    have hname : ∀ cfg : Option String,
        cacheNameOf cfg name = pyStr cfg ++ "/" ++ name := by
      intro cfg; simp [cacheNameOf, h]
    have hdist : ∀ t1 t2 : String, t1 ≠ t2 →
        cacheNameOf (Option.some t1) name ≠ cacheNameOf (Option.some t2) name := by
      intro t1 t2 hne heq
      rw [hname, hname] at heq
      exact hne (string_append_cancel_right (string_append_cancel_right heq))
    refine ⟨hname, hdist, ?_⟩
    intro L t1 t2 hne hk
    exact hdist t1 t2 hne (congrArg Prod.snd hk)
  · intro h cfg1 cfg2
    constructor
    · simp [cacheNameOf, h]
    · simp [cacheNameOf, h]

/-- Witness for C1 at the themes `core-beta` and `pixo`. -/
theorem cache_name_theme_namespacing_witness :
    cacheNameOf (Option.some "core-beta") "index.html"
      ≠ cacheNameOf (Option.some "pixo") "index.html"
    ∧ cacheNameOf (Option.some "core-beta") "admin/panel.html"
      = "admin/panel.html" := by
  constructor
  · exact ((cache_name_theme_namespacing "index.html").1 (by decide)).2.1
      "core-beta" "pixo" (by decide)
  · exact (((cache_name_theme_namespacing "admin/panel.html").2 (by decide))
      (Option.some "core-beta") (Option.some "pixo")).1

/-- C10: the cache-name computation is total when no theme is configured:
`str(None)` is `"None"`, so a missing theme yields `"None/" + name`. -/
theorem cache_name_total_without_theme (name : String)
    (h : pyStartsWith name "admin/" = false) :
    cacheNameOf Option.none name = "None/" ++ name := by
  simp [cacheNameOf, h, pyStr]

/-- Witness for C10 at `index.html`. -/
theorem cache_name_total_without_theme_witness :
    cacheNameOf Option.none "index.html" = "None/" ++ "index.html" :=
  cache_name_total_without_theme "index.html" (by decide)

/-- C8: the environment's `finalize` maps `None` to the empty string and
leaves every other value unchanged, so an absent value renders as an empty
string and never as a literal null token. -/
theorem finalize_none_to_empty_string :
    finalize PyVal.pynone = PyVal.pystr ""
    ∧ ∀ x : PyVal, x ≠ PyVal.pynone → finalize x = x := by
  refine ⟨rfl, ?_⟩
  intro x hx
  simp [finalize, hx]

/-- Witness for C8 at the integer value `3`. -/
theorem finalize_none_to_empty_string_witness :
    finalize PyVal.pynone = PyVal.pystr ""
    ∧ finalize (PyVal.pyint 3) = PyVal.pyint 3 :=
  ⟨finalize_none_to_empty_string.1,
   finalize_none_to_empty_string.2 (PyVal.pyint 3) (by decide)⟩

/-- C9: `CTFdRequest.__init__` sets the request's effective path to the
script root concatenated with the original path, at construction; the
constructed value records exactly that concatenation (and no other
operation of this module touches the path afterwards — the embedding has no
other operation on `CTFdRequest`). -/
theorem ctfd_request_path_rewrite (script_root original_path : String) :
    (ctfdRequestInit script_root original_path).path
      = script_root ++ original_path
    ∧ (ctfdRequestInit script_root original_path).script_root = script_root :=
  ⟨rfl, rfl⟩

/-- C5 counterexample: with no loader attached, `_load_template` raises a
`TypeError` whose message is `"no loader for this environment specified"` —
not an error carrying the message `"no loader specified"` as the claim
states. -/
theorem load_template_no_loader_message_counterexample :
    load_template envNoLoader "index.html" []
      = Except.error
          (JinjaError.typeError "no loader for this environment specified")
    ∧ ("no loader for this environment specified" : String)
        ≠ "no loader specified" :=
  ⟨rfl, by decide⟩

/-- C5 (amended): for every name and globals input, if the environment's
loader is `None` then `_load_template` fails with a `TypeError` carrying
the message `"no loader for this environment specified"`, before consulting
the cache or performing any other work (the outcome is independent of the
cache, the auto-reload flag and the theme). -/
theorem load_template_no_loader (env : Env) (name : String)
    (g : List (String × String)) (h : env.loader = Option.none) :
    load_template env name g
      = Except.error
          (JinjaError.typeError "no loader for this environment specified") := by
  simp [load_template, h]

/-- Witness for the amended C5 on a concrete loaderless environment. -/
theorem load_template_no_loader_witness :
    load_template
      { loader := Option.none, cache := Option.none, auto_reload := true,
        theme_cfg := Option.none, env_globals := [] } "page.html" []
      = Except.error
          (JinjaError.typeError "no loader for this environment specified") :=
  load_template_no_loader _ "page.html" [] rfl

/-- C2: when a compilation cache is configured and the lookup of the cache
key finds a template, `_load_template` honors the entry — returning the
same template object (identity preserved) with its globals updated by any
supplied globals — exactly when auto-reload is disabled or the template
reports itself up-to-date; in every other case it falls through to the
loader chain and replaces the cache entry under the same key. -/
theorem load_template_cache_hit_semantics (env : Env) (L : Loader)
    (c : Cache) (name : String) (g : List (String × String)) (t : Template)
    (hL : env.loader = Option.some L) (hc : env.cache = Option.some c)
    (ht : cacheLookup c (cacheKeyOf L env.theme_cfg name) = Option.some t) :
    ((!env.auto_reload || t.is_up_to_date) = true →
      (hitResult t g).tid = t.tid
      ∧ load_template env name g
          = Except.ok (hitResult t g,
              if g.isEmpty then env
              else cacheStoreEnv env L name (hitResult t g)))
    ∧ ((!env.auto_reload || t.is_up_to_date) = false →
      load_template env name g
        = match L.load name (makeGlobals env g) with
          | Except.error e => Except.error e
          | Except.ok t2 => Except.ok (t2, cacheStoreEnv env L name t2)) := by
  constructor
  · intro hcond
    constructor
    · unfold hitResult
      split
      · rfl
      · rfl
    · by_cases hg : g.isEmpty
      · simp [load_template, cacheHit, hL, hc, ht, hcond, hitResult, hg]
      · simp [load_template, cacheHit, hL, hc, ht, hcond, hitResult, hg]
  · intro hcond
    simp [load_template, cacheHit, hL, hc, ht, hcond]

/-- Witness for C2: a second resolution of `page.html` with auto-reload
disabled returns the identical cached artifact and leaves the state
unchanged. -/
theorem load_template_cache_hit_semantics_witness :
    load_template envHitW "page.html" [] = Except.ok (tplW, envHitW) := by
  have h := load_template_cache_hit_semantics envHitW loaderW
    [((1, "core-beta/page.html"), tplW)] "page.html" [] tplW rfl rfl
    (by decide)
  exact (h.1 (by decide)).2

/-- C4: on a cache miss, `_load_template` invokes the loader chain with the
original logical name (never the theme-prefixed cache name), and a
`TemplateNotFound` raised when no loader resolves that name propagates to
the caller. -/
theorem load_template_miss_uses_original_name (env : Env) (L : Loader)
    (name : String) (g : List (String × String))
    (hL : env.loader = Option.some L)
    (hmiss : cacheHit env L name = Option.none) :
    load_template env name g
      = (match L.load name (makeGlobals env g) with
         | Except.error e => Except.error e
         | Except.ok t => Except.ok (t, cacheStoreEnv env L name t))
    ∧ (L.load name (makeGlobals env g)
          = Except.error (JinjaError.templateNotFound name) →
        load_template env name g
          = Except.error (JinjaError.templateNotFound name)) := by
  have hmain : load_template env name g
      = (match L.load name (makeGlobals env g) with
         | Except.error e => Except.error e
         | Except.ok t => Except.ok (t, cacheStoreEnv env L name t)) := by
    simp [load_template, hL, hmiss]
  refine ⟨hmain, ?_⟩
  intro hload
  rw [hmain, hload]

/-- Witness for C4: with no cache and an empty chain, resolving
`missing.html` propagates `TemplateNotFound "missing.html"`. -/
theorem load_template_miss_uses_original_name_witness :
    load_template envMissW "missing.html" []
      = Except.error (JinjaError.templateNotFound "missing.html") := by
  have h := load_template_miss_uses_original_name envMissW loaderW
    "missing.html" [] rfl rfl
  exact h.2 rfl

/-- `splitFirst` decomposition: a successful split recovers the input. -/
theorem splitFirst_eq (sep : Char) :
    ∀ (l p r : List Char), splitFirst sep l = Option.some (p, r) →
      l = p ++ sep :: r := by
  intro l
  induction l with
  | nil =>
    intro p r h
    simp [splitFirst] at h
  | cons c cs ih =>
    intro p r h
    by_cases hc : c = sep
    · subst hc
      simp [splitFirst] at h
      obtain ⟨hp, hr⟩ := h
      subst hp
      subst hr
      simp
    · unfold splitFirst at h
      rw [if_neg hc] at h
      cases hsp : splitFirst sep cs with
      | none =>
        rw [hsp] at h
        simp at h
      | some pr =>
        rw [hsp] at h
        simp only [Option.map_some'] at h
        injection h with h1
        have h2 : c :: pr.1 = p := congrArg Prod.fst h1
        have h3 : pr.2 = r := congrArg Prod.snd h1
        have h4 := ih pr.1 pr.2 (by rw [hsp])
        rw [← h2, ← h3]
        simp [h4]

/-- C3: the loader chain built by `create_app` is exactly the three
sub-loaders — the override table, the theme-aware loader, the
`plugins/`-restricted plugin loader — in that order; the first that
resolves a name wins; any name present in the override table resolves to
its literal source regardless of on-disk theme content; and the plugin
loader only matches names prefixed `plugins/`. -/
theorem loader_chain_structure (ov : List (String × String))
    (themeDisk : String → String → Option String)
    (pluginDisk : String → Option String)
    (cfg : Option String) (name src : String)
    (h : lookupStr ov name = Option.some src) :
    appLoaderChain ov themeDisk pluginDisk
      = [TplLoader.dict ov, TplLoader.theme themeDisk,
         TplLoader.plugin pluginDisk]
    ∧ choiceGetSource cfg (appLoaderChain ov themeDisk pluginDisk) name
        = Option.some src
    ∧ (∀ n s, getSource cfg (TplLoader.plugin pluginDisk) n = Option.some s →
        pyStartsWith n "plugins/" = true) := by
  refine ⟨rfl, ?_, ?_⟩
  · simp [appLoaderChain, choiceGetSource, getSource, h]
  · intro n s hn
    unfold getSource at hn
    cases hsp : splitFirst '/' n.data with
    | none =>
      rw [hsp] at hn
      simp at hn
    | some pr =>
      obtain ⟨p1, p2⟩ := pr
      rw [hsp] at hn
      by_cases hpre : p1 = "plugins".data
      · have hd : n.data = "plugins/".data ++ p2 := by
          have h5 := splitFirst_eq '/' n.data p1 p2 (by rw [hsp])
          rw [h5, hpre]
          rfl
        unfold pyStartsWith
        rw [hd]
        simp [List.isPrefixOf_iff_prefix, List.prefix_append]
      · simp [hpre] at hn

/-- Witness for C3: an override table mapping `index.html` to a literal
source wins over an on-disk theme that also provides every name. -/
theorem loader_chain_structure_witness :
    choiceGetSource (Option.some "core-beta")
      (appLoaderChain [("index.html", "<p>hi</p>")]
        (fun _ _ => Option.some "<theme disk content>")
        (fun _ => Option.none))
      "index.html" = Option.some "<p>hi</p>" := by
  have h := loader_chain_structure [("index.html", "<p>hi</p>")]
    (fun _ _ => Option.some "<theme disk content>") (fun _ => Option.none)
    (Option.some "core-beta") "index.html" "<p>hi</p>" (by decide)
  exact h.2.1

/-- The strict-version ordering is irreflexive. -/
theorem svLt_irrefl (a : SVer) : svLt a a = false := by
  simp [svLt]

/-- C6: a stored version that strict-parses older than the build version
triggers the upgrade routine (the single `run_upgrade()` call of that
branch); an equal stored version triggers nothing; an unset stored version
initializes the configuration to the build version. -/
theorem version_gate_semantics (s b : String) (sa sb : SVer)
    (hs : parseStrictVersion s = Option.some sa)
    (hb : parseStrictVersion b = Option.some sb)
    (hne : s.isEmpty = false) :
    (svLt sa sb = true →
      versionGate (Option.some s) b = Option.some VersionAction.runUpgrade)
    ∧ (s = b → versionGate (Option.some s) b = Option.some VersionAction.noop)
    ∧ versionGate Option.none b
        = Option.some (VersionAction.setVersion b) := by
  refine ⟨?_, ?_, rfl⟩
  · intro hlt
    simp [versionGate, hne, hs, hb, hlt]
  · intro heq
    subst heq
    have hab : sa = sb := by
      rw [hs] at hb
      exact Option.some.inj hb
    subst hab
    simp [versionGate, hne, hs, svLt_irrefl]

/-- Witness for C6 at stored `3.7.0` / `3.7.5` against build `3.7.5`. -/
theorem version_gate_semantics_witness :
    versionGate (Option.some "3.7.0") "3.7.5"
      = Option.some VersionAction.runUpgrade
    ∧ versionGate (Option.some "3.7.5") "3.7.5"
      = Option.some VersionAction.noop := by
  have h1 := version_gate_semantics "3.7.0" "3.7.5" ⟨3, 7, 0⟩ ⟨3, 7, 5⟩
    (by decide) (by decide) (by decide)
  have h2 := version_gate_semantics "3.7.5" "3.7.5" ⟨3, 7, 5⟩ ⟨3, 7, 5⟩
    (by decide) (by decide) (by decide)
  exact ⟨h1.1 (by decide), h2.2.1 rfl⟩

/-- C7 (documenting the code bug): an absent/falsy `REVERSE_PROXY` leaves
the entry point unwrapped and a comma-separated integer string is parsed
and applied as hop counts, but a 4-tuple value makes `create_app` evaluate
`ProxyFix(app.wsgi_app, *None)`, which raises `TypeError` instead of
applying the tuple. -/
theorem reverse_proxy_tuple_type_error :
    applyReverseProxy RPVal.absent = ProxyOutcome.unwrapped
    ∧ applyReverseProxy (RPVal.str "1,1,0,0")
        = ProxyOutcome.wrapped [1, 1, 0, 0]
    ∧ applyReverseProxy (RPVal.tuple4 1 1 0 0) = ProxyOutcome.typeError := by
  refine ⟨rfl, ?_, rfl⟩
  decide

end CTFd
